import Mathlib

/-!
Verification development for the ssh-ai gateway's connection-pooling and
stream-multiplexing core.  The definitions below are a shallow embedding of
the Rust source:

* src/src/connection_pool.rs   (PooledConnection, ConnectionPool)
* src/src/websocket.rs         (basic handle_message / client_connection)
* src/src/high_performance/websocket.rs  (batching send task, handle_message)
* src/src/high_performance/ssh.rs        (SSHSession::write_bytes)
* src/src/ssh.rs                         (SSHSession::write)

Time is modelled as a natural-number clock: Instant::now() becomes an explicit
parameter, and Instant::elapsed() becomes truncated subtraction, matching the
saturating behaviour of Instant.  Machine counters (u64, usize) are modelled
as Nat; the only subtraction the source performs (current_size -= 1) is
modelled by Nat truncated subtraction.  The opaque ssh2::Session handle is
modelled by a numeric identity so that distinct live connections can be
counted; the pool state additionally carries ghost fields (checkedOut,
createdFor) that record what the callers of the Rust API hold, which the Rust
heap represents by ownership of the returned PooledConnection values.
-/

namespace SshAi

/-- PoolConfig from src/src/connection_pool.rs (Durations in whole seconds). -/
structure PoolConfig where
  max_size : Nat
  min_idle : Nat
  max_idle_time : Nat
  max_lifetime : Nat
  connection_timeout : Nat
deriving Repr, DecidableEq

/-- PooledConnection from src/src/connection_pool.rs.  Field for field the
Rust struct is: session (opaque ssh2 handle, modelled by a numeric identity),
created_at, last_used, use_count, host, port.  Note the source struct stores
no username. -/
structure PooledConnection where
  session : Nat
  created_at : Nat
  last_used : Nat
  use_count : Nat
  host : String
  port : Nat
deriving Repr, DecidableEq

/-- PooledConnection::is_expired: self.created_at.elapsed() > max_age. -/
def PooledConnection.is_expired (c : PooledConnection) (now max_age : Nat) : Bool :=
  decide (max_age < now - c.created_at)

/-- PooledConnection::is_idle_too_long: self.last_used.elapsed() > max_idle. -/
def PooledConnection.is_idle_too_long (c : PooledConnection) (now max_idle : Nat) : Bool :=
  decide (max_idle < now - c.last_used)

/-- PooledConnection::mark_used: refresh last_used, bump use_count. -/
def PooledConnection.mark_used (c : PooledConnection) (now : Nat) : PooledConnection :=
  { c with last_used := now, use_count := c.use_count + 1 }

/-- PoolStats from src/src/connection_pool.rs. -/
structure PoolStats where
  total_created : Nat
  total_destroyed : Nat
  total_checkouts : Nat
  total_returns : Nat
  current_size : Nat
  current_idle : Nat
deriving Repr, DecidableEq

/-- PoolStats::default(): all counters zero. -/
def PoolStats.init : PoolStats :=
  { total_created := 0, total_destroyed := 0, total_checkouts := 0,
    total_returns := 0, current_size := 0, current_idle := 0 }

/-- PoolError from src/src/connection_pool.rs. -/
inductive PoolError where
  | PoolFull
  | NoConnectionAvailable
  | ConnectionCreationFailed
  | ConnectionExpired
deriving Repr, DecidableEq

/-- Outcome of one sequential call to ConnectionPool::get_connection.
wouldBlock marks the case where semaphore.acquire().await would suspend
(zero permits available); acquire only returns Err - mapped by the source to
PoolError::PoolFull - when the semaphore has been closed. -/
inductive PoolReply where
  | ok (conn : PooledConnection)
  | err (e : PoolError)
  | wouldBlock
deriving Repr, DecidableEq

/-- State of one ConnectionPool value.  connections mirrors the
VecDeque<PooledConnection> (head = front); permits and semClosed mirror the
tokio Semaphore created with max_size permits (nothing in the source ever
closes it); stats mirrors PoolStats.  nextId supplies fresh identities for
newly created ssh2 sessions.  checkedOut and createdFor are ghost state:
checkedOut lists the connections currently held by callers (returned by
get_connection and not yet returned or dropped), and createdFor records, for
every connection ever created, the (session id, host, port, username) passed
to create_connection - the username is recorded nowhere in the Rust structs,
so only this ghost log can mention it. -/
structure PoolState where
  connections : List PooledConnection
  permits : Nat
  semClosed : Bool
  stats : PoolStats
  nextId : Nat
  checkedOut : List PooledConnection
  createdFor : List (Nat × String × Nat × String)
deriving Repr, DecidableEq

/-- ConnectionPool::new(config): empty deque, Semaphore::new(max_size),
default stats. -/
def ConnectionPool.new (cfg : PoolConfig) : PoolState :=
  { connections := [], permits := cfg.max_size, semClosed := false,
    stats := PoolStats.init, nextId := 0, checkedOut := [], createdFor := [] }

/-- The condition of the idle scan in ConnectionPool::get_connection:
conn.host == host && conn.port == port and the connection is neither
lifetime-expired nor idle-timed-out.  The requested username is not part of
the comparison (the source struct does not store one). -/
def idleMatch (cfg : PoolConfig) (host : String) (port now : Nat)
    (c : PooledConnection) : Bool :=
  decide (c.host = host) && decide (c.port = port) &&
    !(c.is_expired now cfg.max_lifetime) && !(c.is_idle_too_long now cfg.max_idle_time)

/-- The idle scan plus connections.remove(i): find the first (front-to-back)
idle connection satisfying idleMatch, remove it, and return it together with
the remaining deque in order.  Matching but stale entries are skipped and
left in place, exactly as the loop in get_connection does. -/
def removeIdle (cfg : PoolConfig) (host : String) (port now : Nat) :
    List PooledConnection → Option (PooledConnection × List PooledConnection)
  | [] => none
  | c :: rest =>
    if idleMatch cfg host port now c then some (c, rest)
    else
      match removeIdle cfg host port now rest with
      | none => none
      | some (d, rest2) => some (d, c :: rest2)

/-- ConnectionPool::get_connection, sequential semantics (one caller at a
time).  On an idle hit: remove, mark_used, bump total_checkouts, refresh
current_idle, hand the connection to the caller.  On a miss: acquire a
semaphore permit - Err (mapped to PoolError::PoolFull) only if the semaphore
is closed, suspension if no permit is free - then create_connection, which
always succeeds at the network level in this model (creation failure is not
the subject of any claim); the binding of the permit to the local _permit
means the permit is dropped, i.e. given back, when get_connection returns,
which the final permits value makes explicit. -/
def get_connection (cfg : PoolConfig) (s : PoolState) (host : String)
    (port : Nat) (username : String) (now : Nat) : PoolState × PoolReply :=
  match removeIdle cfg host port now s.connections with
  | some (c, rest) =>
    let c2 := c.mark_used now
    ({ s with
        connections := rest,
        stats := { s.stats with
          total_checkouts := s.stats.total_checkouts + 1,
          current_idle := rest.length },
        checkedOut := c2 :: s.checkedOut },
      PoolReply.ok c2)
  | none =>
    if s.semClosed then
      (s, PoolReply.err PoolError.PoolFull)
    else if s.permits = 0 then
      (s, PoolReply.wouldBlock)
    else
      let afterAcquire := s.permits - 1
      let conn : PooledConnection :=
        { session := s.nextId, created_at := now, last_used := now,
          use_count := 0, host := host, port := port }
      ({ s with
          connections := s.connections,
          permits := afterAcquire + 1,
          stats := { s.stats with
            total_created := s.stats.total_created + 1,
            current_size := s.stats.current_size + 1 },
          nextId := s.nextId + 1,
          checkedOut := conn :: s.checkedOut,
          createdFor := (s.nextId, host, port, username) :: s.createdFor },
        PoolReply.ok conn)

/-- The retain predicate of ConnectionPool::cleanup_expired: keep a
connection iff it is neither lifetime-expired nor idle-timed-out. -/
def keepAlive (cfg : PoolConfig) (now : Nat) (c : PooledConnection) : Bool :=
  !(c.is_expired now cfg.max_lifetime) && !(c.is_idle_too_long now cfg.max_idle_time)

/-- ConnectionPool::cleanup_expired: retain the live connections (in order),
count every removed one into total_destroyed and out of current_size, then
set current_idle to the new length.  The source updates the two counters once
per removed element inside the retain closure; adding and subtracting the
total count is the same thing (Nat subtraction saturates exactly as the
element-wise usize updates would, taken together). -/
def cleanup_expired (cfg : PoolConfig) (connections : List PooledConnection)
    (stats : PoolStats) (now : Nat) : List PooledConnection × PoolStats :=
  let kept := connections.filter (keepAlive cfg now)
  let removed := connections.length - kept.length
  (kept,
    { stats with
      total_destroyed := stats.total_destroyed + removed,
      current_size := stats.current_size - removed,
      current_idle := kept.length })

/-- ConnectionPool::return_connection: if the connection is not
lifetime-expired, refresh last_used, push it on the back of the deque, bump
total_returns and refresh current_idle; otherwise count it destroyed.  Either
way, finish by running cleanup_expired on the deque. -/
def return_connection (cfg : PoolConfig) (s : PoolState) (c : PooledConnection)
    (now : Nat) : PoolState :=
  if c.is_expired now cfg.max_lifetime then
    let stats1 := { s.stats with total_destroyed := s.stats.total_destroyed + 1 }
    let r := cleanup_expired cfg s.connections stats1 now
    { s with connections := r.1, stats := r.2 }
  else
    let c2 := { c with last_used := now }
    let conns1 := s.connections ++ [c2]
    let stats1 := { s.stats with
      total_returns := s.stats.total_returns + 1,
      current_idle := conns1.length }
    let r := cleanup_expired cfg conns1 stats1 now
    { s with connections := r.1, stats := r.2 }

/-- ConnectionPool::clear: empty the deque, add its length to
total_destroyed, zero both gauges. -/
def ConnectionPool.clear (s : PoolState) : PoolState :=
  { s with
    connections := [],
    stats := { s.stats with
      total_destroyed := s.stats.total_destroyed + s.connections.length,
      current_size := 0,
      current_idle := 0 } }

/-- One operation a caller can perform against the pool.  checkout carries
the requested endpoint and credentials plus the clock value; ret returns the
checked-out connection with the given session identity at the given time;
discard drops a checked-out connection on the floor (the Rust caller simply
lets the PooledConnection value fall out of scope - no pool method runs). -/
inductive PoolOp where
  | checkout (host : String) (port : Nat) (username : String) (now : Nat)
  | ret (sessionId : Nat) (now : Nat)
  | discard (sessionId : Nat)
  | clear
deriving Repr, DecidableEq

/-- Remove the first checked-out connection with the given session id. -/
def removeById (l : List PooledConnection) (id : Nat) : List PooledConnection :=
  match l with
  | [] => []
  | c :: rest => if c.session = id then rest else c :: removeById rest id

/-- Interpret one PoolOp against the pool state. -/
def poolStep (cfg : PoolConfig) (s : PoolState) (op : PoolOp) : PoolState :=
  match op with
  | PoolOp.checkout h p u now => (get_connection cfg s h p u now).1
  | PoolOp.ret id now =>
    match s.checkedOut.find? (fun c => decide (c.session = id)) with
    | some c => return_connection cfg { s with checkedOut := removeById s.checkedOut id } c now
    | none => s
  | PoolOp.discard id => { s with checkedOut := removeById s.checkedOut id }
  | PoolOp.clear => ConnectionPool.clear s

/-- Run a sequence of operations from a freshly constructed pool. -/
def runPool (cfg : PoolConfig) (ops : List PoolOp) : PoolState :=
  ops.foldl (poolStep cfg) (ConnectionPool.new cfg)

/-- Number of live PooledConnection values: idle in the pool plus checked out
by callers. -/
def liveConns (s : PoolState) : Nat :=
  s.connections.length + s.checkedOut.length

/-- The username that was passed to create_connection for the connection with
the given session identity (read off the ghost creation log). -/
def createdUsername (s : PoolState) (id : Nat) : Option String :=
  (s.createdFor.find? (fun e => decide (e.1 = id))).map (fun e => e.2.2.2)

/-- Default-like configuration used in concrete scenarios (max_size 50,
max_idle_time 300 s, max_lifetime 3600 s, as in PoolConfig::default). -/
def demoCfg : PoolConfig :=
  { max_size := 50, min_idle := 5, max_idle_time := 300, max_lifetime := 3600,
    connection_timeout := 10 }

/-- Scenario configuration with max_size = 1. -/
def demoCfg1 : PoolConfig := { demoCfg with max_size := 1 }

/-- Scenario configuration with max_size = 2. -/
def demoCfg2 : PoolConfig := { demoCfg with max_size := 2 }

/-- First checkout of the C1 scenario: fresh pool with max_size = 1. -/
def c1step1 : PoolState × PoolReply :=
  get_connection demoCfg1 (ConnectionPool.new demoCfg1) "h" 22 "alice" 0

/-- Second checkout of the C1 scenario, while the first connection is still
checked out. -/
def c1step2 : PoolState × PoolReply :=
  get_connection demoCfg1 c1step1.1 "h" 22 "alice" 0

/-- C1: the claim states that the number of live PooledConnections never
exceeds max_size because the capacity permit is held for the whole life of a
checked-out connection.  The code drops the permit when get_connection
returns (the permit is bound to the local _permit), so with max_size = 1 two
back-to-back checkouts both succeed and leave two live connections while the
semaphore is back to one free permit after each call. -/
theorem c1_pool_exceeds_max_size :
    c1step1.2 = PoolReply.ok
      { session := 0, created_at := 0, last_used := 0, use_count := 0,
        host := "h", port := 22 } ∧
    c1step2.2 = PoolReply.ok
      { session := 1, created_at := 0, last_used := 0, use_count := 0,
        host := "h", port := 22 } ∧
    c1step1.1.permits = demoCfg1.max_size ∧
    c1step2.1.permits = demoCfg1.max_size ∧
    demoCfg1.max_size = 1 ∧
    liveConns c1step2.1 = 2 := by
  decide

/-- The three checkouts of the C2 scenario with max_size = 2. -/
def c2step1 : PoolState × PoolReply :=
  get_connection demoCfg2 (ConnectionPool.new demoCfg2) "h" 22 "alice" 0

/-- Second checkout of the C2 scenario. -/
def c2step2 : PoolState × PoolReply :=
  get_connection demoCfg2 c2step1.1 "h" 22 "alice" 0

/-- Third checkout of the C2 scenario: the claim says this one must fail with
PoolError::PoolFull while the first two connections stay checked out. -/
def c2step3 : PoolState × PoolReply :=
  get_connection demoCfg2 c2step2.1 "h" 22 "alice" 0

/-- C2: the claim states that a checkout beyond max_size reports
PoolError::PoolFull.  In the code acquire() only errors once the semaphore is
closed (nothing closes it) and every permit is given back when
get_connection returns, so the third sequential checkout succeeds and creates
a third connection instead of reporting PoolFull. -/
theorem c2_third_checkout_succeeds_not_poolfull :
    c2step1.2 = PoolReply.ok
      { session := 0, created_at := 0, last_used := 0, use_count := 0,
        host := "h", port := 22 } ∧
    c2step2.2 = PoolReply.ok
      { session := 1, created_at := 0, last_used := 0, use_count := 0,
        host := "h", port := 22 } ∧
    c2step3.2 = PoolReply.ok
      { session := 2, created_at := 0, last_used := 0, use_count := 0,
        host := "h", port := 22 } ∧
    c2step3.2 ≠ PoolReply.err PoolError.PoolFull ∧
    demoCfg2.max_size = 2 ∧
    liveConns c2step3.1 = 3 := by
  decide

/-- Pool state of the C3 scenario: one connection created for username alice
against h:22, then returned to the idle set. -/
def c3state : PoolState :=
  runPool demoCfg [PoolOp.checkout "h" 22 "alice" 0, PoolOp.ret 0 1]

/-- The C3 scenario checkout: same host and port, different username. -/
def c3reuse : PoolState × PoolReply :=
  get_connection demoCfg c3state "h" 22 "bob" 2

/-- C3: the claim states a pooled connection is reused only when the full
(host, port, username) key matches.  The source struct stores no username and
the idle scan compares host and port only, so the connection created for
alice is handed to the checkout requesting username bob. -/
theorem c3_username_ignored_on_reuse :
    createdUsername c3state 0 = some "alice" ∧
    c3reuse.2 = PoolReply.ok
      { session := 0, created_at := 0, last_used := 2, use_count := 1,
        host := "h", port := 22 } ∧
    "alice" ≠ "bob" := by
  decide

/-- The idle scan removes the first (front-to-back) entry of the deque that
satisfies idleMatch, everything before it fails the match, and the remaining
deque keeps its order. -/
theorem removeIdle_first_match (cfg : PoolConfig) (host : String) (port now : Nat) :
    ∀ (conns rest : List PooledConnection) (c : PooledConnection),
      removeIdle cfg host port now conns = some (c, rest) →
      ∃ pre post, conns = pre ++ c :: post ∧ rest = pre ++ post ∧
        idleMatch cfg host port now c = true ∧
        ∀ x ∈ pre, idleMatch cfg host port now x = false := by
  intro conns
  induction conns with
  | nil => intro rest c h; simp [removeIdle] at h
  | cons a tl ih =>
    intro rest c h
    by_cases ha : idleMatch cfg host port now a = true
    · rw [removeIdle, if_pos ha] at h
      simp only [Option.some.injEq, Prod.mk.injEq] at h
      obtain ⟨rfl, rfl⟩ := h
      exact ⟨[], tl, by simp, by simp, ha, by simp⟩
    · rw [removeIdle, if_neg ha] at h
      cases hr : removeIdle cfg host port now tl with
      | none => rw [hr] at h; simp at h
      | some pr =>
        obtain ⟨d, rest2⟩ := pr
        rw [hr] at h
        simp only [Option.some.injEq, Prod.mk.injEq] at h
        obtain ⟨rfl, rfl⟩ := h
        obtain ⟨pre, post, h1, h2, h3, h4⟩ := ih rest2 d hr
        refine ⟨a :: pre, post, by simp [h1], by simp [h2], h3, ?_⟩
        intro x hx
        rcases List.mem_cons.mp hx with hxa | hxp
        · rw [hxa]; exact Bool.eq_false_iff.mpr ha
        · exact h4 x hxp

/-- Claim C5 (amended): when the idle scan of get_connection selects a
connection, it is the first entry in front-to-back deque order that matches
the endpoint and is neither expired nor idle-timed-out; every earlier entry
fails the match.  Since return_connection pushes returned connections on the
back, among always-matching idle connections the selected one is the
least-recently-returned (FIFO reuse), not the most-recently-used. -/
theorem c5_first_match_selection (cfg : PoolConfig) (host : String) (port now : Nat)
    (conns rest : List PooledConnection) (c : PooledConnection)
    (h : removeIdle cfg host port now conns = some (c, rest)) :
    ∃ pre post, conns = pre ++ c :: post ∧ rest = pre ++ post ∧
      idleMatch cfg host port now c = true ∧
      ∀ x ∈ pre, idleMatch cfg host port now x = false :=
  removeIdle_first_match cfg host port now conns rest c h

/-- Concrete connection for the C5 witness. -/
def c5wConn : PooledConnection :=
  { session := 9, created_at := 0, last_used := 0, use_count := 0,
    host := "h", port := 22 }

/-- Witness instantiating c5_first_match_selection on a one-element idle set. -/
theorem c5_first_match_selection_witness :
    ∃ pre post, [c5wConn] = pre ++ c5wConn :: post ∧
      ([] : List PooledConnection) = pre ++ post ∧
      idleMatch demoCfg "h" 22 0 c5wConn = true ∧
      ∀ x ∈ pre, idleMatch demoCfg "h" 22 0 x = false :=
  c5_first_match_selection demoCfg "h" 22 0 [c5wConn] [] c5wConn (by decide)

/-- C5 scenario state: two connections to the same endpoint, the one with
session id 0 returned at t=1, the one with session id 1 returned at t=2 (most
recently used). -/
def c5state : PoolState :=
  runPool demoCfg
    [PoolOp.checkout "h" 22 "u" 0, PoolOp.checkout "h" 22 "u" 0,
     PoolOp.ret 0 1, PoolOp.ret 1 2]

/-- The C5 scenario checkout at t=3. -/
def c5reuse : PoolState × PoolReply :=
  get_connection demoCfg c5state "h" 22 "u" 3

/-- C5 counterexample: with idle connections (session 0, last_used 1) and
(session 1, last_used 2) both matching, the checkout returns session 0 - the
least-recently-used one - because returns push on the back of the deque and
the scan picks the first match from the front.  The claim says the
most-recently-used (session 1) would be selected. -/
theorem c5_fifo_counterexample :
    c5state.connections.map (fun c => (c.session, c.last_used)) = [(0, 1), (1, 2)] ∧
    c5reuse.2 = PoolReply.ok
      { session := 0, created_at := 0, last_used := 3, use_count := 1,
        host := "h", port := 22 } := by
  decide

/-- Claim C6: a connection whose age since created_at exceeds max_lifetime is
never the connection returned by a checkout.  A reused connection passed the
scan's is_expired test (strict comparison, so age exactly max_lifetime is
still allowed, matching the claim's strict wording), and a freshly created
connection has age zero. -/
theorem c6_no_expired_returned (cfg : PoolConfig) (s : PoolState) (host : String)
    (port : Nat) (username : String) (now : Nat) (c : PooledConnection)
    (h : (get_connection cfg s host port username now).2 = PoolReply.ok c) :
    now - c.created_at ≤ cfg.max_lifetime := by
  unfold get_connection at h
  cases hr : removeIdle cfg host port now s.connections with
  | some pr =>
    obtain ⟨c0, rest⟩ := pr
    rw [hr] at h
    simp only [PoolReply.ok.injEq] at h
    obtain ⟨pre, post, _, _, hmatch, _⟩ :=
      removeIdle_first_match cfg host port now s.connections rest c0 hr
    simp only [idleMatch, Bool.and_eq_true, Bool.not_eq_true',
      PooledConnection.is_expired, decide_eq_false_iff_not] at hmatch
    rw [← h]
    simp only [PooledConnection.mark_used]
    omega
  | none =>
    rw [hr] at h
    by_cases h1 : s.semClosed
    · simp [h1] at h
    · by_cases h2 : s.permits = 0
      · simp [h1, h2] at h
      · simp only [h1, h2, if_false, if_neg h2, Bool.false_eq_true,
          PoolReply.ok.injEq] at h
        rw [← h]
        simp

/-- Concrete connection for the C6 witness: the one a fresh pool creates at
t=5 for h:22. -/
def c6conn : PooledConnection :=
  { session := 0, created_at := 5, last_used := 5, use_count := 0,
    host := "h", port := 22 }

/-- Witness instantiating c6_no_expired_returned on a checkout from a fresh
pool at t=5. -/
theorem c6_no_expired_returned_witness :
    5 - c6conn.created_at ≤ demoCfg.max_lifetime :=
  c6_no_expired_returned demoCfg (ConnectionPool.new demoCfg) "h" 22 "u" 5
    c6conn (by decide)

/-- Scenario configuration for C7: max_idle_time of 5 seconds. -/
def c7cfg : PoolConfig := { demoCfg with max_idle_time := 5 }

/-- Scenario connection for C7: returned at t=0 (last_used = 0), never
reused. -/
def c7conn : PooledConnection :=
  { session := 0, created_at := 0, last_used := 0, use_count := 1,
    host := "h", port := 22 }

/-- Claim C7: after a run of cleanup_expired at time now, every connection
still in the idle set has been idle for at most max_idle_time; and in the
scenario with max_idle_time = 5 s, a connection returned at t=0 is still
present when cleanup runs at t=4 and absent after cleanup runs at t=6. -/
theorem c7_idle_eviction :
    (∀ (cfg : PoolConfig) (conns : List PooledConnection) (stats : PoolStats)
        (now : Nat) (c : PooledConnection),
        c ∈ (cleanup_expired cfg conns stats now).1 →
        now - c.last_used ≤ cfg.max_idle_time) ∧
    c7conn ∈ (cleanup_expired c7cfg [c7conn] PoolStats.init 4).1 ∧
    c7conn ∉ (cleanup_expired c7cfg [c7conn] PoolStats.init 6).1 := by
  refine ⟨?_, by decide, by decide⟩
  intro cfg conns stats now c hc
  simp only [cleanup_expired, List.mem_filter, keepAlive, Bool.and_eq_true,
    Bool.not_eq_true', PooledConnection.is_idle_too_long,
    decide_eq_false_iff_not] at hc
  omega

/-- Witness instantiating the universally quantified part of
c7_idle_eviction at the scenario's t=4 cleanup. -/
theorem c7_idle_eviction_witness :
    4 - c7conn.last_used ≤ c7cfg.max_idle_time :=
  c7_idle_eviction.1 c7cfg [c7conn] PoolStats.init 4 c7conn (by decide)

/-- Every single pool operation re-establishes the gauge equation
current_idle = number of idle connections (the branches that do not touch
either side preserve it, the others set current_idle to the fresh length). -/
theorem poolStep_idle_gauge (cfg : PoolConfig) (s : PoolState) (op : PoolOp)
    (h : s.stats.current_idle = s.connections.length) :
    (poolStep cfg s op).stats.current_idle = (poolStep cfg s op).connections.length := by
  cases op with
  | checkout host port username now =>
    simp only [poolStep]
    unfold get_connection
    cases hr : removeIdle cfg host port now s.connections with
    | some pr => obtain ⟨c0, rest⟩ := pr; simp
    | none =>
      by_cases h1 : s.semClosed
      · simpa [h1] using h
      · by_cases h2 : s.permits = 0
        · simpa [h1, h2] using h
        · simpa [h1, h2] using h
  | ret id now =>
    simp only [poolStep]
    split
    · unfold return_connection
      split
      · simp [cleanup_expired]
      · simp [cleanup_expired]
    · exact h
  | discard id => simpa [poolStep] using h
  | clear => simp [poolStep, ConnectionPool.clear]

/-- Claim C10: after every sequence of public pool operations (checkout,
return, discard, clear, and the cleanup runs return triggers), the stats
gauge current_idle equals the number of connections in the idle set. -/
theorem c10_current_idle_accurate (cfg : PoolConfig) (ops : List PoolOp) :
    (runPool cfg ops).stats.current_idle = (runPool cfg ops).connections.length := by
  have main : ∀ (l : List PoolOp) (s : PoolState),
      s.stats.current_idle = s.connections.length →
      (l.foldl (poolStep cfg) s).stats.current_idle =
        (l.foldl (poolStep cfg) s).connections.length := by
    intro l
    induction l with
    | nil => intro s hs; simpa using hs
    | cons op tl ih =>
      intro s hs
      exact ih (poolStep cfg s op) (poolStep_idle_gauge cfg s op hs)
  exact main ops (ConnectionPool.new cfg) rfl

/-- WebSocketMessage of the high-performance build (src/src/optimized/models.rs
variant set consumed by src/src/high_performance/websocket.rs): Connect, Data,
Disconnect, BatchData, Ping, Pong.  Uuid session ids are modelled as Nat and
data payloads as byte lists (the handlers write data.as_bytes()). -/
inductive WsMessage where
  | connect (host : String) (port : Nat) (username password : String)
  | data (session_id : Nat) (payload : List Nat)
  | batchData (session_id : Nat) (payload : List (List Nat))
  | disconnect (session_id : Nat)
  | ping
  | pong
deriving Repr, DecidableEq

/-- WebSocketMessage of the basic build (src/src/models.rs): only Connect,
Data, Disconnect exist; anything else fails deserialization and never reaches
handle_message. -/
inductive BasicMessage where
  | connect (host : String) (port : Nat) (username password : String)
  | data (session_id : Nat) (payload : List Nat)
  | disconnect (session_id : Nat)
deriving Repr, DecidableEq

/-- WebSocketResponse (union of the basic and high-performance variants used
by the handlers). -/
inductive WsResponse where
  | connected (session_id : Nat)
  | dataOut (payload : List Nat)
  | error (message : String)
  | disconnected
  | pong
deriving Repr, DecidableEq

/-- Outcome oracle for the externally-determined parts of a Connect: whether
state.connection_pool.get hits (high-performance path only), whether
SSHSession::new succeeds, and the freshly drawn Uuid. -/
structure ConnectEnv where
  poolHit : Bool
  connectOk : Bool
  freshId : Nat
deriving Repr, DecidableEq

/-- One entry of the session registry (the Sessions / AppState.sessions map),
keyed by session id.  writeFails says whether the underlying channel write
returns Err for this session (an I/O property of the remote end); written is
ghost state recording the bytes the remote shell has observed, in order. -/
structure SessionEntry where
  id : Nat
  writeFails : Bool
  written : List Nat
deriving Repr, DecidableEq

/-- sessions.get(&session_id). -/
def lookupSession (l : List SessionEntry) (sid : Nat) : Option SessionEntry :=
  l.find? (fun s => decide (s.id = sid))

/-- A successful inline write of d to session sid (ssh.write in the basic
path: write_all + flush under the session mutex, so the shell has observed
the bytes when the handler step completes). -/
def writeSession (l : List SessionEntry) (sid : Nat) (d : List Nat) :
    List SessionEntry :=
  l.map (fun s => if s.id = sid then { s with written := s.written ++ d } else s)

/-- sessions.remove(&session_id). -/
def removeSession (l : List SessionEntry) (sid : Nat) : List SessionEntry :=
  l.filter (fun s => !decide (s.id = sid))

/-- SSHSession::write_bytes of src/src/high_performance/ssh.rs: it refreshes
last_activity, clones the channel, spawns a detached task doing write_all,
and returns Ok(()) unconditionally - so its result, as seen by the handler,
is always Ok, and the Err reply branches guarded by it are dead code.  The
detached write itself is modelled by hpShellObservable below. -/
def hp_write_bytes_result : Except String Unit := Except.ok ()

/-- handle_message of src/src/high_performance/websocket.rs, producing the
new registry and the list of replies pushed into the outbound channel.
Connect consults the pool, then SSHSession::new_async, and replies Connected
or Error; Data and BatchData look the session up and, because
hp_write_bytes_result is always Ok, never reply (the unknown-session case
falls through the if-let with no else and replies nothing); Disconnect
replies Disconnected; Ping replies Pong; Pong hits the wildcard arm. -/
def hpHandleMessage (env : ConnectEnv) (sessions : List SessionEntry)
    (msg : WsMessage) : List SessionEntry × List WsResponse :=
  match msg with
  | WsMessage.connect _ _ _ _ =>
    if env.poolHit then
      ({ id := env.freshId, writeFails := false, written := [] } :: sessions,
        [WsResponse.connected env.freshId])
    else if env.connectOk then
      ({ id := env.freshId, writeFails := false, written := [] } :: sessions,
        [WsResponse.connected env.freshId])
    else
      (sessions, [WsResponse.error "Connection failed"])
  | WsMessage.data sid _ =>
    match lookupSession sessions sid with
    | some _ =>
      match hp_write_bytes_result with
      | Except.ok _ => (sessions, [])
      | Except.error e => (sessions, [WsResponse.error ("Write failed: " ++ e)])
    | none => (sessions, [])
  | WsMessage.batchData sid _ =>
    match lookupSession sessions sid with
    | some _ => (sessions, [])
    | none => (sessions, [])
  | WsMessage.disconnect sid =>
    (removeSession sessions sid, [WsResponse.disconnected])
  | WsMessage.ping => (sessions, [WsResponse.pong])
  | WsMessage.pong => (sessions, [])

/-- handle_message of src/src/websocket.rs.  Data looks the session up; on a
hit it performs ssh.write inline (under the session mutex) and replies Error
only when the write fails; when the session id is absent the if-let has no
else branch and nothing is sent.  Disconnect removes and replies
Disconnected. -/
def basicHandleMessage (env : ConnectEnv) (sessions : List SessionEntry)
    (msg : BasicMessage) : List SessionEntry × List WsResponse :=
  match msg with
  | BasicMessage.connect _ _ _ _ =>
    if env.connectOk then
      ({ id := env.freshId, writeFails := false, written := [] } :: sessions,
        [WsResponse.connected env.freshId])
    else
      (sessions, [WsResponse.error "Connection failed"])
  | BasicMessage.data sid d =>
    match lookupSession sessions sid with
    | some s =>
      if s.writeFails then (sessions, [WsResponse.error "Write failed"])
      else (writeSession sessions sid d, [])
    | none => (sessions, [])
  | BasicMessage.disconnect sid =>
    (removeSession sessions sid, [WsResponse.disconnected])

/-- The basic client_connection loop awaits handle_message inline for each
decoded inbound message, so the messages act on the registry strictly in
arrival order. -/
def basicRun (env : ConnectEnv) (sessions : List SessionEntry) :
    List BasicMessage → List SessionEntry
  | [] => sessions
  | m :: rest => basicRun env (basicHandleMessage env sessions m).1 rest

/-- Oracle values used by the concrete scenarios. -/
def demoEnv : ConnectEnv := { poolHit := false, connectOk := true, freshId := 0 }

/-- C4 counterexample: a Data (or BatchData) message whose session id is
absent from the registry produces no reply at all - the if-let around the
session lookup has no else branch in either handler - where the claim says
the multiplexer replies with an Error message. -/
theorem c4_unknown_session_silently_dropped :
    (hpHandleMessage demoEnv [] (WsMessage.data 99 [7])).2 = [] ∧
    (hpHandleMessage demoEnv [] (WsMessage.batchData 99 [[7]])).2 = [] ∧
    (basicHandleMessage demoEnv [] (BasicMessage.data 99 [7])).2 = [] := by
  decide

/-- Claim C4 (amended): Connect always gets exactly one reply (Connected or
Error), Disconnect replies Disconnected, Ping replies Pong; but a Data or
BatchData message whose session id is absent from the registry is silently
dropped - no reply of any kind is sent - in both the basic and the
high-performance handler. -/
theorem c4_reply_characterization :
    (∀ (env : ConnectEnv) (sessions : List SessionEntry) (sid : Nat) (d : List Nat),
        lookupSession sessions sid = none →
        (hpHandleMessage env sessions (WsMessage.data sid d)).2 = []) ∧
    (∀ (env : ConnectEnv) (sessions : List SessionEntry) (sid : Nat)
        (ds : List (List Nat)),
        lookupSession sessions sid = none →
        (hpHandleMessage env sessions (WsMessage.batchData sid ds)).2 = []) ∧
    (∀ (env : ConnectEnv) (sessions : List SessionEntry) (sid : Nat) (d : List Nat),
        lookupSession sessions sid = none →
        (basicHandleMessage env sessions (BasicMessage.data sid d)).2 = []) ∧
    (∀ (env : ConnectEnv) (sessions : List SessionEntry) (h : String) (p : Nat)
        (u pw : String),
        ((hpHandleMessage env sessions (WsMessage.connect h p u pw)).2).length = 1) ∧
    (∀ (env : ConnectEnv) (sessions : List SessionEntry) (sid : Nat),
        (hpHandleMessage env sessions (WsMessage.disconnect sid)).2 =
          [WsResponse.disconnected]) ∧
    (∀ (env : ConnectEnv) (sessions : List SessionEntry),
        (hpHandleMessage env sessions WsMessage.ping).2 = [WsResponse.pong]) := by
  refine ⟨?_, ?_, ?_, ?_, ?_, ?_⟩
  · intro env sessions sid d hnone
    simp [hpHandleMessage, hnone]
  · intro env sessions sid ds hnone
    simp [hpHandleMessage, hnone]
  · intro env sessions sid d hnone
    simp [basicHandleMessage, hnone]
  · intro env sessions h p u pw
    by_cases h1 : env.poolHit = true
    · simp [hpHandleMessage, h1]
    · by_cases h2 : env.connectOk = true
      · simp [hpHandleMessage, h1, h2]
      · simp [hpHandleMessage, h1, h2]
  · intro env sessions sid
    simp [hpHandleMessage]
  · intro env sessions
    simp [hpHandleMessage]

/-- Witness instantiating the Data conjunct of c4_reply_characterization on
an empty registry. -/
theorem c4_reply_characterization_witness :
    (hpHandleMessage demoEnv [] (WsMessage.data 42 [1])).2 = [] :=
  c4_reply_characterization.1 demoEnv [] 42 [1] (by decide)

/-- Looking up a session after an inline write to it yields the same entry
with the new bytes appended to its ghost shell transcript. -/
theorem lookupSession_writeSession (l : List SessionEntry) (sid : Nat)
    (s : SessionEntry) (d : List Nat) (h : lookupSession l sid = some s) :
    lookupSession (writeSession l sid d) sid =
      some { s with written := s.written ++ d } := by
  induction l with
  | nil => simp [lookupSession] at h
  | cons a tl ih =>
    by_cases ha : a.id = sid
    · rw [lookupSession, List.find?_cons_of_pos _ (by simpa using ha)] at h
      simp only [Option.some.injEq] at h
      rw [writeSession, List.map_cons, if_pos ha, lookupSession,
        List.find?_cons_of_pos _ (by simpa using ha)]
      rw [← h]
    · rw [lookupSession, List.find?_cons_of_neg _ (by simpa using ha)] at h
      rw [writeSession, List.map_cons, if_neg ha, lookupSession,
        List.find?_cons_of_neg _ (by simpa using ha)]
      exact ih h

/-- A sequence of inbound Data messages for one session. -/
def onlyData (sid : Nat) (ws : List (List Nat)) : List BasicMessage :=
  ws.map (fun d => BasicMessage.data sid d)

/-- Claim C9 (amended, positive half): in the basic path the inbound messages
are handled inline on the client loop and each write runs write_all + flush
under the session mutex before the next message is processed, so for a
session whose channel writes succeed, submitting W1, ..., Wn in order makes
the remote shell observe exactly their concatenation in that order. -/
theorem c9_basic_order_preserved (env : ConnectEnv) (sessions : List SessionEntry)
    (sid : Nat) (s : SessionEntry) (ws : List (List Nat))
    (hs : lookupSession sessions sid = some s) (hw : s.writeFails = false) :
    lookupSession (basicRun env sessions (onlyData sid ws)) sid =
      some { s with written := s.written ++ ws.flatten } := by
  induction ws generalizing sessions s with
  | nil => simpa using hs
  | cons d tl ih =>
    have hstep : basicHandleMessage env sessions (BasicMessage.data sid d) =
        (writeSession sessions sid d, []) := by
      simp [basicHandleMessage, hs, hw]
    have hnext := lookupSession_writeSession sessions sid s d hs
    have := ih (writeSession sessions sid d)
      { s with written := s.written ++ d } hnext hw
    simp only [onlyData, List.map_cons, basicRun, hstep] at this ⊢
    simpa [List.append_assoc] using this

/-- Concrete registry entry for the C9 witness. -/
def c9wSession : SessionEntry := { id := 5, writeFails := false, written := [] }

/-- Witness instantiating c9_basic_order_preserved on a two-write sequence. -/
theorem c9_basic_order_preserved_witness :
    lookupSession (basicRun demoEnv [c9wSession] (onlyData 5 [[1], [2]])) 5 =
      some { c9wSession with
              written := c9wSession.written ++ ([[1], [2]] : List (List Nat)).flatten } :=
  c9_basic_order_preserved demoEnv [c9wSession] 5 c9wSession [[1], [2]]
    (by decide) (by decide)

/-- In the high-performance path handle_connection spawns handle_message as a
fresh task for every inbound message, and SSHSession::write_bytes spawns a
further detached task that performs channel.write_all(&data) after the
session lock is already released; no mechanism orders those detached write
tasks, so the shell can observe the submitted chunks in any task execution
order.  The observable shell inputs are the concatenations of the
permutations of the submitted chunks (each write_all taken as atomic - the
source even allows finer interleaving, which is not needed here). -/
def hpShellObservable (writes : List (List Nat)) (observed : List Nat) : Prop :=
  ∃ p : List (List Nat), List.Perm p writes ∧ observed = p.flatten

/-- C9 counterexample: submitting W1 = [1] then W2 = [2] to one
high-performance session admits the schedule in which the shell observes
[2, 1], which differs from the submission order [1, 2] - so concurrent
writes to the same session are not serialized in submission order. -/
theorem c9_hp_reorder_counterexample :
    hpShellObservable [[1], [2]] [2, 1] ∧
      ([2, 1] : List Nat) ≠ ([[1], [2]] : List (List Nat)).flatten :=
  ⟨⟨[[2], [1]], List.Perm.swap _ _ _, rfl⟩, by decide⟩

/-- Is b a UTF-8 continuation byte (0x80..0xBF)? -/
def isCont (b : Nat) : Bool := decide (0x80 ≤ b) && decide (b ≤ 0xBF)

/-- The UTF-8 encoding of U+FFFD, the replacement character that
String::from_utf8_lossy substitutes for each maximal invalid subpart. -/
def replacementBytes : List Nat := [0xEF, 0xBF, 0xBD]

/-- The admissible second byte of a multi-byte UTF-8 sequence, which depends
on the leading byte (0xE0 and 0xF0 exclude overlong encodings, 0xED excludes
surrogates, 0xF4 caps the range at U+10FFFF). -/
def validSecond (b0 b1 : Nat) : Bool :=
  if b0 = 0xE0 then decide (0xA0 ≤ b1) && decide (b1 ≤ 0xBF)
  else if b0 = 0xED then decide (0x80 ≤ b1) && decide (b1 ≤ 0x9F)
  else if b0 = 0xF0 then decide (0x90 ≤ b1) && decide (b1 ≤ 0xBF)
  else if b0 = 0xF4 then decide (0x80 ≤ b1) && decide (b1 ≤ 0x8F)
  else isCont b1

/-- String::from_utf8_lossy, as the bytes of the resulting string: valid
UTF-8 sequences pass through unchanged; each maximal invalid subpart (an
out-of-range leading byte, a valid prefix cut short by an out-of-range
byte, or a sequence truncated by the end of the buffer) is replaced by one
U+FFFD, and decoding resumes at the offending byte.  This is Rust's
substitution-of-maximal-subparts policy. -/
def utf8Lossy : List Nat → List Nat
  | [] => []
  | b0 :: rest =>
    if b0 < 0x80 then b0 :: utf8Lossy rest
    else if decide (0xC2 ≤ b0) && decide (b0 ≤ 0xDF) then
      match rest with
      | [] => replacementBytes
      | b1 :: rest2 =>
        if isCont b1 then b0 :: b1 :: utf8Lossy rest2
        else replacementBytes ++ utf8Lossy (b1 :: rest2)
    else if decide (0xE0 ≤ b0) && decide (b0 ≤ 0xEF) then
      match rest with
      | [] => replacementBytes
      | b1 :: rest2 =>
        if validSecond b0 b1 then
          match rest2 with
          | [] => replacementBytes
          | b2 :: rest3 =>
            if isCont b2 then b0 :: b1 :: b2 :: utf8Lossy rest3
            else replacementBytes ++ utf8Lossy (b2 :: rest3)
        else replacementBytes ++ utf8Lossy (b1 :: rest2)
    else if decide (0xF0 ≤ b0) && decide (b0 ≤ 0xF4) then
      match rest with
      | [] => replacementBytes
      | b1 :: rest2 =>
        if validSecond b0 b1 then
          match rest2 with
          | [] => replacementBytes
          | b2 :: rest3 =>
            if isCont b2 then
              match rest3 with
              | [] => replacementBytes
              | b3 :: rest4 =>
                if isCont b3 then b0 :: b1 :: b2 :: b3 :: utf8Lossy rest4
                else replacementBytes ++ utf8Lossy (b3 :: rest4)
            else replacementBytes ++ utf8Lossy (b2 :: rest3)
        else replacementBytes ++ utf8Lossy (b1 :: rest2)
    else replacementBytes ++ utf8Lossy rest

/-- The byte-level batching loop of the data-forwarding task spawned in the
Connect arm of src/src/high_performance/websocket.rs:

  while let Some(data) = rx.recv().await \x7b
      buffer.extend_from_slice(&data);
      if buffer.len() >= 1024 || rx.is_empty() \x7b
          send Data \x7b data: String::from_utf8_lossy(&buffer).into_owned() \x7d;
          buffer.clear();
      \x7d
  \x7d

Each input item is the received chunk paired with the value rx.is_empty()
had right after the chunk was taken (true when nothing else was queued at
that instant).  The output is the list of flushed Data payloads, in order,
each being the bytes of the from_utf8_lossy conversion of the flushed
buffer - not the raw buffer.  When the producer side has finished, the last
queued chunk is necessarily taken with an empty queue, so a completed
stream ends with flag true - that is the lastFlagTrue hypothesis below. -/
def forwardTask : List (List Nat × Bool) → List Nat → List (List Nat)
  | [], _ => []
  | (d, f) :: rest, buffer =>
    let buffer2 := buffer ++ d
    if 1024 ≤ buffer2.length ∨ f = true then utf8Lossy buffer2 :: forwardTask rest []
    else forwardTask rest buffer2

/-- The final item of the chunk stream was taken from an already-drained
queue (true of every completed stream). -/
def lastFlagTrue : List (List Nat × Bool) → Prop
  | [] => True
  | (_, f) :: rest => (rest = [] → f = true) ∧ lastFlagTrue rest

/-- On pure ASCII input the lossy conversion is the identity. -/
theorem utf8Lossy_ascii :
    ∀ (l : List Nat), (∀ b ∈ l, b < 0x80) → utf8Lossy l = l := by
  intro l
  induction l with
  | nil => intro _; rfl
  | cons b0 rest ih =>
    intro h
    have hb : b0 < 0x80 := h b0 (List.mem_cons_self _ _)
    rw [utf8Lossy.eq_def]
    simp [hb]
    exact ih (fun b hb2 => h b (List.mem_cons_of_mem _ hb2))

/-- Byte preservation of the forwarding task on ASCII streams: when every
byte is below 0x80, the from_utf8_lossy conversion at each flush is the
identity, and the concatenation of the flushed payloads over a completed
stream is the pending buffer followed by the concatenation of all received
chunks, in order - nothing is dropped, including the bytes buffered when
the stream ends.  (For non-UTF-8 input, or a multibyte character split at a
flush boundary, the conversion substitutes U+FFFD and the equation fails:
see the C8 counterexample.) -/
theorem forwardTask_flatten_ascii :
    ∀ (items : List (List Nat × Bool)) (buffer : List Nat),
      (∀ b ∈ buffer, b < 0x80) →
      (∀ p ∈ items, ∀ b ∈ p.1, b < 0x80) →
      lastFlagTrue items → items ≠ [] →
      (forwardTask items buffer).flatten = buffer ++ (items.map Prod.fst).flatten := by
  intro items
  induction items with
  | nil => intro buffer _ _ _ hne; cases hne rfl
  | cons it rest ih =>
    intro buffer hbuf hitems hlast _
    obtain ⟨d, f⟩ := it
    obtain ⟨h1, h2⟩ := hlast
    have hd : ∀ b ∈ d, b < 0x80 :=
      fun b hb => hitems (d, f) (List.mem_cons_self _ _) b hb
    have hbd : ∀ b ∈ buffer ++ d, b < 0x80 := by
      intro b hb
      rcases List.mem_append.mp hb with hcase | hcase
      · exact hbuf b hcase
      · exact hd b hcase
    have hrest2 : ∀ p ∈ rest, ∀ b ∈ p.1, b < 0x80 :=
      fun p hp => hitems p (List.mem_cons_of_mem _ hp)
    by_cases hrest : rest = []
    · subst hrest
      have hf : f = true := h1 rfl
      subst hf
      simp [forwardTask, utf8Lossy_ascii (buffer ++ d) hbd]
    · rw [forwardTask]
      split
      · rw [List.flatten_cons, ih [] (by simp) hrest2 h2 hrest,
          utf8Lossy_ascii (buffer ++ d) hbd]
        simp
      · rw [ih (buffer ++ d) hbd hrest2 h2 hrest]
        simp

/-- The forwarding task emits at most one outbound message per received
chunk. -/
theorem forwardTask_count :
    ∀ (items : List (List Nat × Bool)) (buffer : List Nat),
      (forwardTask items buffer).length ≤ items.length := by
  intro items
  induction items with
  | nil => intro buffer; simp [forwardTask]
  | cons it rest ih =>
    intro buffer
    obtain ⟨d, f⟩ := it
    rw [forwardTask]
    split
    · simpa using Nat.succ_le_succ (ih [])
    · exact Nat.le_succ_of_le (ih _)

/-- The scenario stream: 100 chunks of 10 bytes arriving faster than they
are consumed (the queue stays non-empty until the last chunk). -/
def scenarioChunks : List (List Nat × Bool) :=
  List.replicate 99 (List.replicate 10 7, false) ++ [(List.replicate 10 7, true)]

/-- One inbound step of the batching send task of handle_connection in
src/src/high_performance/websocket.rs: either rx.next() yields a queued
outbound JSON message, or the 5 ms flush interval ticks. -/
inductive SendEvent where
  | recv (msg : String)
  | tick
deriving Repr, DecidableEq

/-- The send-task select loop: push each received message into the batch
buffer and flush (send_batch) when it reaches BATCH_SIZE = 32; on an
interval tick, flush exactly when the buffer is non-empty.  The result lists
the flushed batches in order - each paired with true when the flush was
triggered by the size threshold and false when by the tick - together with
whatever is left in the buffer when the modelled trace ends (the real loop
keeps ticking, so a later tick flushes the remainder: see
sendTask_final_empty). -/
def sendTask : List SendEvent → List String → List (List String × Bool) × List String
  | [], buffer => ([], buffer)
  | SendEvent.recv m :: rest, buffer =>
    let buffer2 := buffer ++ [m]
    if 32 ≤ buffer2.length then
      let r := sendTask rest []
      ((buffer2, true) :: r.1, r.2)
    else sendTask rest buffer2
  | SendEvent.tick :: rest, buffer =>
    if buffer.isEmpty then sendTask rest buffer
    else
      let r := sendTask rest []
      ((buffer, false) :: r.1, r.2)

/-- The outbound messages received from the per-connection channel, in
order. -/
def recvMsgs : List SendEvent → List String
  | [] => []
  | SendEvent.recv m :: rest => m :: recvMsgs rest
  | SendEvent.tick :: rest => recvMsgs rest

/-- Message preservation of the send task: the flushed batches concatenated,
followed by the still-buffered remainder, are exactly the initial buffer
followed by the received messages, in order - batching coalesces but never
drops or reorders. -/
theorem sendTask_content :
    ∀ (events : List SendEvent) (buffer : List String),
      ((sendTask events buffer).1.map Prod.fst).flatten ++ (sendTask events buffer).2 =
        buffer ++ recvMsgs events := by
  intro events
  induction events with
  | nil => intro buffer; simp [sendTask, recvMsgs]
  | cons e rest ih =>
    intro buffer
    cases e with
    | recv m =>
      simp only [sendTask, recvMsgs]
      split
      · simp only [List.map_cons, List.flatten_cons, List.append_assoc, ih []]
        simp
      · rw [ih (buffer ++ [m])]
        simp
    | tick =>
      simp only [sendTask, recvMsgs]
      split
      · exact ih buffer
      · simp only [List.map_cons, List.flatten_cons, List.append_assoc, ih []]
        simp

/-- Once the stream of messages has ended, the next interval tick flushes
whatever is still buffered: a trace ending in a tick leaves nothing behind. -/
theorem sendTask_final_empty :
    ∀ (events : List SendEvent) (buffer : List String),
      (sendTask (events ++ [SendEvent.tick]) buffer).2 = [] := by
  intro events
  induction events with
  | nil =>
    intro buffer
    by_cases hb : buffer.isEmpty
    · simp only [List.nil_append, sendTask, if_pos hb]
      simpa [List.isEmpty_iff] using hb
    · simp [sendTask, hb]
  | cons e rest ih =>
    intro buffer
    cases e with
    | recv m =>
      simp only [List.cons_append, sendTask]
      split
      · exact ih []
      · exact ih _
    | tick =>
      simp only [List.cons_append, sendTask]
      split
      · exact ih buffer
      · exact ih []

/-- Flush-trigger characterization: starting below the threshold, every
flush the send task performs is either a size flush of exactly BATCH_SIZE =
32 buffered messages or a tick flush of a non-empty buffer - it never
flushes otherwise. -/
theorem sendTask_flush_trigger :
    ∀ (events : List SendEvent) (buffer : List String), buffer.length < 32 →
      ∀ bt ∈ (sendTask events buffer).1,
        (bt.2 = true → bt.1.length = 32) ∧ (bt.2 = false → bt.1 ≠ []) := by
  intro events
  induction events with
  | nil => intro buffer _ bt hbt; simp [sendTask] at hbt
  | cons e rest ih =>
    intro buffer hlen bt hbt
    cases e with
    | recv m =>
      simp only [sendTask] at hbt
      split at hbt
      · next hge =>
        rcases List.mem_cons.mp hbt with hbt1 | hbt2
        · subst hbt1
          refine ⟨fun _ => ?_, fun hfalse => by simp at hfalse⟩
          have hup : (buffer ++ [m]).length = buffer.length + 1 := by simp
          show (buffer ++ [m]).length = 32
          omega
        · exact ih [] (by simp) bt hbt2
      · next hlt => exact ih (buffer ++ [m]) (by omega) bt hbt
    | tick =>
      simp only [sendTask] at hbt
      split at hbt
      · exact ih buffer hlen bt hbt
      · next hne =>
        rcases List.mem_cons.mp hbt with hbt1 | hbt2
        · subst hbt1
          refine ⟨fun htrue => by simp at htrue, fun _ => ?_⟩
          show buffer ≠ []
          simpa [List.isEmpty_iff] using hne
        · exact ih [] (by simp) bt hbt2

set_option maxRecDepth 8000

/-- Claim C8 (amended): outbound batching of shell output.  Conjuncts, in
order: (1) on ASCII streams - where the from_utf8_lossy conversion applied
at every flush is the identity - the byte batcher of the forwarding task
preserves content and order of all chunks over a completed stream,
including bytes still buffered at the end (for non-UTF-8 chunks, or a
multibyte character split at the 1024-byte flush boundary, the conversion
substitutes U+FFFD and equality fails: see the counterexample); (2) it
never produces more messages than chunks; (3) in the scenario of 100 chunks
of 10 bytes arriving back-to-back it produces exactly one outbound Data
message with the full content - materially fewer than 100; (4) the send
task's batching preserves message content and order with nothing dropped;
(5) a tick after the last message flushes the remainder, so stream end
loses nothing; (6) every send-task flush - these are the outbound client
messages - happens exactly at the size threshold (32 buffered messages) or
at an interval tick with a non-empty buffer (the byte-level buffer, by
contrast, also flushes when the channel queue is momentarily empty, as
forwardTask's flag makes explicit). -/
theorem c8_output_batching :
    (∀ (items : List (List Nat × Bool)) (buffer : List Nat),
        (∀ b ∈ buffer, b < 0x80) →
        (∀ p ∈ items, ∀ b ∈ p.1, b < 0x80) →
        lastFlagTrue items → items ≠ [] →
        (forwardTask items buffer).flatten = buffer ++ (items.map Prod.fst).flatten) ∧
    (∀ (items : List (List Nat × Bool)) (buffer : List Nat),
        (forwardTask items buffer).length ≤ items.length) ∧
    ((forwardTask scenarioChunks []).length = 1 ∧
      (forwardTask scenarioChunks []).flatten = (scenarioChunks.map Prod.fst).flatten ∧
      scenarioChunks.length = 100) ∧
    (∀ (events : List SendEvent) (buffer : List String),
        ((sendTask events buffer).1.map Prod.fst).flatten ++ (sendTask events buffer).2 =
          buffer ++ recvMsgs events) ∧
    (∀ (events : List SendEvent) (buffer : List String),
        (sendTask (events ++ [SendEvent.tick]) buffer).2 = []) ∧
    (∀ (events : List SendEvent) (buffer : List String), buffer.length < 32 →
        ∀ bt ∈ (sendTask events buffer).1,
          (bt.2 = true → bt.1.length = 32) ∧ (bt.2 = false → bt.1 ≠ [])) := by
  refine ⟨forwardTask_flatten_ascii, forwardTask_count, ⟨?_, ?_, ?_⟩,
    sendTask_content, sendTask_final_empty, sendTask_flush_trigger⟩
  · decide
  · decide
  · decide

/-- Witness instantiating the ASCII byte-preservation conjunct of
c8_output_batching on a one-chunk stream. -/
theorem c8_output_batching_witness :
    (forwardTask [([7], true)] []).flatten =
      [] ++ ([([7], true)].map Prod.fst).flatten :=
  c8_output_batching.1 [([7], true)] [] (by simp) (by decide)
    (by exact ⟨fun _ => rfl, trivial⟩) (by exact List.cons_ne_nil _ _)

/-- A chunk stream that splits the two-byte UTF-8 character 0xC3 0xA9 (that
is e-acute) across the 1024-byte size flush: the first chunk fills the
buffer to exactly 1024 bytes ending in the lead byte 0xC3, forcing a size
flush mid-character; the continuation byte 0xA9 arrives in the next chunk. -/
def splitCharStream : List (List Nat × Bool) :=
  [(List.replicate 1023 97 ++ [0xC3], false), ([0xA9], true)]

/-- C8 counterexample: the bytes delivered to the client are not the bytes
produced by the shell.  A single non-UTF-8 chunk [0xFF] is delivered as the
three replacement-character bytes EF BF BD; the valid character C3 A9 split
across the 1024-byte flush boundary is delivered as two replacement
characters.  The last two conjuncts additionally exhibit a byte-level flush
of a 1-byte buffer, triggered by the momentarily empty queue - neither the
size threshold nor a flush interval. -/
theorem c8_lossy_counterexample :
    (forwardTask [([0xFF], true)] []).flatten = [0xEF, 0xBF, 0xBD] ∧
    ([([0xFF], true)].map Prod.fst).flatten = [0xFF] ∧
    (forwardTask [([0xFF], true)] []).flatten ≠
      ([([0xFF], true)].map Prod.fst).flatten ∧
    (forwardTask splitCharStream []).flatten =
      List.replicate 1023 97 ++ [0xEF, 0xBF, 0xBD, 0xEF, 0xBF, 0xBD] ∧
    (splitCharStream.map Prod.fst).flatten =
      List.replicate 1023 97 ++ [0xC3, 0xA9] ∧
    (forwardTask splitCharStream []).flatten ≠
      (splitCharStream.map Prod.fst).flatten ∧
    forwardTask [([7], true)] [] = [[7]] ∧
    ([7] : List Nat).length < 1024 := by
  decide

end SshAi
